import Mathlib

/-!
# win32utils — window-procedure dispatch and message-loop subsystem

A shallow embedding of the dispatch core of the `win32utils` repository
(`window.go` and the modal two-text-input dialog file), together with
theorems settling the frozen claims about it.

Modelling conventions:
* `windows.HWND`, `windows.Handle` and `uintptr` are machine words used as
  opaque identifiers or payloads; they are modelled as `Nat`.
* A Go `map[HWND]WndProc` is modelled as a function `Handle → Option α`
  (a nil Go function value is `none`).
* Calls into the OS (`DefWindowProcW`, `GetMessageW`, `GetTickCount`,
  `CreateWindowExW`, `GetWindowTextW`, `RegisterClassExW`, …) are modelled
  by explicit environment records / oracle streams supplied as arguments:
  the code under verification is the Go-side logic around those calls.
* `globalWndProc` additionally returns the list of observable dispatch
  events (procedure invocations with the registry as seen at the moment of
  the call, registry removals, default-handler calls) so that "invokes the
  procedure exactly once", "removal happens after the call" and "the
  procedure still observes its own registration" are expressible; the
  event list records exactly the operations the Go function body performs,
  in source order.
-/

namespace Win32Utils

/-- An opaque, OS-assigned window handle (`windows.HWND`). -/
abbrev Handle := Nat

/-- A machine word (`uintptr`) used for message parameters and results. -/
abbrev Word := Nat

/-- Message identifiers used by the embedded code (src/window.go lines 16-30). -/
def WM_DESTROY : Nat := 0x0002
def WM_NCDESTROY : Nat := 0x0082
def WM_CLOSE : Nat := 0x0010
def WM_COMMAND : Nat := 0x0111
def WM_USER : Nat := 0x0400
def IDOK : Nat := 1
def IDCANCEL : Nat := 2

/-- `WndProc` — the window procedure callback type
(`func(hwnd, msg, wParam, lParam) uintptr`, src/window.go line 34). -/
abbrev WndProc := Handle → Nat → Word → Word → Word

/-- The process-wide registry `wndProcByHWND : map[HWND]WndProc`
(src/window.go line 38). -/
abbrev WndProcMap := Handle → Option WndProc

/-- `deleteWndProc` (src/window.go lines 61-65): delete the entry for `hwnd`. -/
def deleteWndProc (m : WndProcMap) (hwnd : Handle) : WndProcMap :=
  fun h => if h = hwnd then none else m h

/-- `setWndProc` (src/window.go lines 51-59): insert or replace the entry for
`hwnd`; a nil procedure (`none`) deletes the entry instead. -/
def setWndProc (m : WndProcMap) (hwnd : Handle) (proc : Option WndProc) : WndProcMap :=
  match proc with
  | none => deleteWndProc m hwnd
  | some p => fun h => if h = hwnd then some p else m h

/-- `getWndProc` (src/window.go lines 67-72): read-only lookup. -/
def getWndProc (m : WndProcMap) (hwnd : Handle) : Option WndProc :=
  m hwnd

/-- One observable step performed by the global trampoline:
* `procCall h msg wParam lParam regAtCall` — the registered procedure for `h`
  was invoked with these four inputs, while the shared registry held the
  value `regAtCall`;
* `regRemove h` — the registry entry for `h` was deleted;
* `defaultCall h msg wParam lParam` — the OS default handler was invoked. -/
inductive DispatchEvent where
  | procCall (hwnd : Handle) (msg : Nat) (wParam lParam : Word) (regAtCall : WndProcMap)
  | regRemove (hwnd : Handle)
  | defaultCall (hwnd : Handle) (msg : Nat) (wParam lParam : Word)

/-- How many times a registered procedure for `hwnd` was invoked in a list of
dispatch events. -/
def procCallCount (evs : List DispatchEvent) (hwnd : Handle) : Nat :=
  (evs.filter fun e =>
    match e with
    | .procCall h _ _ _ _ => decide (h = hwnd)
    | _ => false).length

/-- `globalWndProc` (src/window.go lines 87-96): dispatch to the Go handler
registered for `hwnd`, cleaning up the registry on `WM_NCDESTROY` after the
handler returns; with no handler, fall back to `DefWindowProcW` (modelled by
the oracle `defWP`). Returns the handler's (or default) result, the registry
after the dispatch, and the list of observable steps in source order. -/
def globalWndProc (defWP : WndProc) (m : WndProcMap) (hwnd : Handle) (msg : Nat)
    (wParam lParam : Word) : Word × WndProcMap × List DispatchEvent :=
  match getWndProc m hwnd with
  | some proc =>
      let ret := proc hwnd msg wParam lParam
      if msg = WM_NCDESTROY then
        (ret, deleteWndProc m hwnd,
          [.procCall hwnd msg wParam lParam m, .regRemove hwnd])
      else
        (ret, m, [.procCall hwnd msg wParam lParam m])
  | none =>
      (defWP hwnd msg wParam lParam, m, [.defaultCall hwnd msg wParam lParam])

/-! ## Message loop (src/window.go lines 212-271) -/

/-- The fields of `MSG` the embedded code reads (src/window.go lines 202-210);
`Time`, `Pt` and `LPrivate` are filled by the OS and never read by this
code, so they are not modelled. -/
structure MSGr where
  hwnd : Handle
  message : Nat
  wParam : Word
  lParam : Word
deriving DecidableEq

/-- The outcome of one OS `GetMessageW` call, as the environment provides it:
`ret` is the primitive's `int32` result (`>0` message, `0` quit sentinel,
`-1` error), `msg` the message it filled in, `lastError` the value
`GetLastError` would report on failure. -/
structure GetMsgCall where
  ret : Int
  msg : MSGr
  lastError : Nat
deriving DecidableEq

/-- `GetMessageW` (src/window.go lines 217-229): pass the OS result through,
attaching `GetLastError()` exactly when the primitive reported `-1`. -/
def GetMessageW (c : GetMsgCall) : Int × Option Nat :=
  if c.ret = -1 then (c.ret, some c.lastError) else (c.ret, none)

/-- `int32(n)` for a `uintptr` value `n`: two's-complement truncation. -/
def toInt32 (n : Nat) : Int :=
  if n % 4294967296 < 2147483648 then ((n % 4294967296 : Nat) : Int)
  else ((n % 4294967296 : Nat) : Int) - 4294967296

/-- `MessageLoop` (src/window.go lines 258-271) over the environment's stream
of `GetMessageW` outcomes. The result pairs the Go return value
`(int32, error)` — `(0, err)` on a retrieval error, `(int32(msg.WParam), nil)`
on the quit sentinel — with the list of messages that were translated and
dispatched before the loop ended. `none` means the stream was exhausted with
the loop still running (the Go loop would still be blocked in retrieval). -/
def MessageLoop : List GetMsgCall → Option ((Int × Option Nat) × List MSGr)
  | [] => none
  | c :: rest =>
      let r := GetMessageW c
      if r.1 = -1 then some ((0, r.2), [])
      else if r.1 = 0 then some ((toInt32 c.msg.wParam, none), [])
      else
        match MessageLoop rest with
        | none => none
        | some (res, ds) => some (res, c.msg :: ds)

/-! ## Window class registration (src/window.go lines 123-143) -/

/-- The error value `registerClassExW` returns: either its own guard error for
a nil `WNDCLASSEXW` pointer, or the OS error code from `GetLastError`. -/
inductive RegClassError where
  | nilWcx
  | osError (code : Nat)
deriving DecidableEq

/-- `registerClassExW` (src/window.go lines 123-143). The struct argument is
modelled by its `CbSize` field under an `Option` (a nil pointer is `none`);
the zero-`CbSize` defaulting only mutates the struct handed to the OS call
and is not otherwise observable. `osR1` is the raw return of the OS
`RegisterClassExW` call (`0` = failure) and `osLastError` the value
`GetLastError` would then report. The result is the Go pair
`(uint16, error)`: a nonzero atom is truncated to `uint16`; on failure the
specific code `1410` (`ERROR_CLASS_ALREADY_EXISTS`) is swallowed and reported
as success `(1, nil)`, every other code is returned as an error. -/
def registerClassExW (osR1 osLastError : Nat) (wcx : Option Nat) :
    Nat × Option RegClassError :=
  match wcx with
  | none => (0, some .nilWcx)
  | some _cbSize =>
      if osR1 ≠ 0 then (osR1 % 65536, none)
      else if osLastError = 1410 then (1, none)
      else (0, some (.osError osLastError))

/-! ## The modal two-text-input dialog (src/unnamed/part_003)

The dialog keeps its procedures in `dialogWndProcs`, a second
`map[HWND]WndProc` disjoint from `wndProcByHWND`. The registry operations are
stated over a combined state `ProcTables P` holding both maps; they are
polymorphic in the stored procedure value `P` because nothing in the map
manipulation inspects the stored closures. -/

/-- The two process-wide procedure maps: `wndProcByHWND` (src/window.go
line 38, consulted by `globalWndProc`) and `dialogWndProcs`
(src/unnamed/part_003 line 227, consulted by `dialogGlobalWndProc`). -/
structure ProcTables (P : Type) where
  wndProcByHWND : Handle → Option P
  dialogWndProcs : Handle → Option P

/-- `setDialogWndProc` (src/unnamed/part_003 lines 230-240): record the old
entry for `hwnd`, then delete (nil procedure) or insert/replace, touching only
`dialogWndProcs`; the old entry is returned. -/
def setDialogWndProc {P : Type} (t : ProcTables P) (hwnd : Handle) (proc : Option P) :
    ProcTables P × Option P :=
  let old := t.dialogWndProcs hwnd
  match proc with
  | none => ({ t with dialogWndProcs := fun h => if h = hwnd then none else t.dialogWndProcs h }, old)
  | some p => ({ t with dialogWndProcs := fun h => if h = hwnd then some p else t.dialogWndProcs h }, old)

/-- `getDialogWndProc` (src/unnamed/part_003 lines 242-247): read-only lookup
in `dialogWndProcs`. -/
def getDialogWndProc {P : Type} (t : ProcTables P) (hwnd : Handle) : Option P :=
  t.dialogWndProcs hwnd

/-- The environment of one `TwoTextInputDialog` call: results the OS returns
for each creation call, the text oracle for `GetWindowTextW`, the
`DefWindowProcW` oracle, and the streams of `GetTickCount` and `GetMessageW`
outcomes consumed by the modal loop. The font creation/application
(lines 117-141) and the geometry/DPI scaling only affect control rendering,
never the procedure maps or the loop, and are not modelled. -/
structure DialogEnv where
  moduleHandle : Except Nat Handle
  dialogCreate : Except Nat Handle
  label1Create : Except Nat Handle
  edit1Create : Except Nat Handle
  label2Create : Except Nat Handle
  edit2Create : Except Nat Handle
  okCreate : Except Nat Handle
  cancelCreate : Except Nat Handle
  windowText : Handle → String
  defWindowProc : Handle → Nat → Word → Word → Word
  ticks : List Nat
  messages : List GetMsgCall

/-- A Go `hwnd, err := CreateWindowExW(...)` result when the error is
discarded: the zero handle on failure. -/
def handleOrZero (r : Except Nat Handle) : Handle :=
  match r with
  | .ok h => h
  | .error _ => 0

/-- The state threaded through the modal loop: the closure's captured locals
`result1`, `result2`, `cancelled` and the completion flag `done`
(src/unnamed/part_003 lines 144-146), plus `windowAlive`, the OS-side fact
that the dialog window has not been destroyed yet (read by `IsWindowW`,
cleared by `DestroyWindow`). -/
structure DialogLoopState where
  result1 : String
  result2 : String
  cancelled : Bool
  done : Nat
  windowAlive : Bool
deriving DecidableEq

/-- The window-procedure closure `TwoTextInputDialog` installs
(src/unnamed/part_003 lines 148-176). Returns the updated state, the
procedure's return value, and whether it called `DestroyWindow(hwnd)`
(the `WM_CLOSE` arm); the `IDOK`/`IDCANCEL` arms post `WM_CLOSE` to the
thread queue, which in this model is the environment's message stream. -/
def twoTextDialogProcCore (env : DialogEnv) (edit1Hwnd edit2Hwnd : Handle)
    (st : DialogLoopState) (hwnd : Handle) (msg : Nat) (wParam lParam : Word) :
    DialogLoopState × Word × Bool :=
  if msg = WM_COMMAND then
    let id := wParam % 65536
    if id = IDOK then
      let text1 := env.windowText edit1Hwnd
      let text2 := env.windowText edit2Hwnd
      ({ st with result1 := text1, result2 := text2, done := 1 }, 0, false)
    else if id = IDCANCEL then
      ({ st with cancelled := true, done := 1 }, 0, false)
    else (st, env.defWindowProc hwnd msg wParam lParam, false)
  else if msg = WM_CLOSE then
    (st, 0, true)
  else if msg = WM_DESTROY then
    ({ st with done := 1 }, 0, false)
  else (st, env.defWindowProc hwnd msg wParam lParam, false)

/-- The OS `DestroyWindow` call on the dialog window while the closure is the
registered procedure: on a live window the OS synchronously sends
`WM_DESTROY` to the window procedure (the closure's `WM_DESTROY` arm, which
sets the completion flag) followed by `WM_NCDESTROY` (which the closure hands
to `DefWindowProcW`, with no state effect), and the window stops existing;
on an already-destroyed window the call fails without re-entering the
procedure. -/
def destroyDialogWindow (env : DialogEnv) (edit1Hwnd edit2Hwnd dialogHWnd : Handle)
    (st : DialogLoopState) : DialogLoopState :=
  if st.windowAlive then
    let r := twoTextDialogProcCore env edit1Hwnd edit2Hwnd st dialogHWnd WM_DESTROY 0 0
    { r.1 with windowAlive := false }
  else st

/-- `DispatchMessageW` for one retrieved message during the modal loop: the OS
routes the message to the target window's procedure. A message for the dialog
window reaches the installed closure through the dialog-class trampoline
(`dialogGlobalWndProc`, src/unnamed/part_003 lines 249-254); a message for
any other window is handled by that window's own procedure and cannot change
this dialog's state. -/
def dispatchDialogMsg (env : DialogEnv) (edit1Hwnd edit2Hwnd dialogHWnd : Handle)
    (st : DialogLoopState) (m : MSGr) : DialogLoopState :=
  if m.hwnd = dialogHWnd then
    let r := twoTextDialogProcCore env edit1Hwnd edit2Hwnd st dialogHWnd m.message m.wParam m.lParam
    if r.2.2 then destroyDialogWindow env edit1Hwnd edit2Hwnd dialogHWnd r.1 else r.1
  else st

/-- Unsigned 32-bit subtraction `a - b` (Go `uint32` arithmetic), used for
`GetTickCount() - startTick`. -/
def sub32 (a b : Nat) : Nat :=
  (a % 4294967296 + (4294967296 - b % 4294967296)) % 4294967296

/-- How the modal loop ended: the completion flag was set, the timeout
elapsed, the quit sentinel (`ret == 0`) arrived, or retrieval reported an
error (`ret == -1`). -/
inductive DialogLoopEnd where
  | completed
  | timedOut
  | quitSentinel
  | retrievalError
deriving DecidableEq

/-- The modal message loop of `TwoTextInputDialog` (src/unnamed/part_003
lines 183-212): while the completion flag is unset, compare the elapsed ticks
against the 30000 ms timeout, retrieve the next message (its error value is
discarded), stop on the quit sentinel or a retrieval error, otherwise
translate (a pass-through) and dispatch it. Returns the final state, the
number of retrieval calls made and how the loop ended; `none` means the
environment's streams ran out with the loop still running. -/
def twoTextDialogLoop (env : DialogEnv) (edit1Hwnd edit2Hwnd dialogHWnd : Handle)
    (startTick : Nat) :
    List Nat → DialogLoopState → List GetMsgCall → Nat →
    Option (DialogLoopState × Nat × DialogLoopEnd)
  | ticks, st, msgs, n =>
    if st.done ≠ 0 then some (st, n, .completed)
    else
      match ticks with
      | [] => none
      | t :: ticksRest =>
        if 30000 < sub32 t startTick then some (st, n, .timedOut)
        else
          match msgs with
          | [] => none
          | c :: msgsRest =>
            if c.ret = 0 then some (st, n + 1, .quitSentinel)
            else if c.ret = -1 then some (st, n + 1, .retrievalError)
            else
              twoTextDialogLoop env edit1Hwnd edit2Hwnd dialogHWnd startTick
                ticksRest (dispatchDialogMsg env edit1Hwnd edit2Hwnd dialogHWnd st c.msg)
                msgsRest (n + 1)

/-- The error value `TwoTextInputDialog` can return: a failure obtaining the
module handle or creating the dialog window, each wrapping the underlying OS
error (src/unnamed/part_003 lines 17-20 and 38-40). -/
inductive DialogError where
  | moduleHandleErr (code : Nat)
  | createDialogErr (code : Nat)
deriving DecidableEq

/-- What one `TwoTextInputDialog` call returns, together with the observable
facts the claims are about: the Go results `(text1, text2, cancelled, error)`,
the procedure tables after the call, the number of `GetMessageW` calls the
modal loop made, and how the loop ended (`none` when the call aborted before
entering the loop). -/
structure DialogResult (P : Type) where
  result1 : String
  result2 : String
  cancelled : Bool
  err : Option DialogError
  tables : ProcTables P
  getMessageCalls : Nat
  loopEnd : Option DialogLoopEnd

/-- `TwoTextInputDialog` (src/unnamed/part_003 lines 16-223). `dlgProc` is the
value standing for the window-procedure closure the call installs (its
behaviour is `twoTextDialogProcCore`; the tables are polymorphic in the
stored value). Failures obtaining the module handle or creating the dialog
window abort with an error before anything is installed; the child-control
creation results are bound with their error values discarded
(`label1Hwnd, _ := ...`), a failed creation leaving the zero handle. Then the
closure is installed (saving the previous entry), the modal loop runs, the
dialog window is destroyed if still alive, the mapping is removed, and the
deferred `setDialogWndProc(dialogHWnd, oldProc)` restores the saved entry.
`none` means the environment's streams ran out with the loop still running
(the Go call would not have returned yet). -/
def TwoTextInputDialog {P : Type} (dlgProc : P) (env : DialogEnv) (t0 : ProcTables P) :
    Option (DialogResult P) :=
  match env.moduleHandle with
  | .error e => some ⟨"", "", false, some (.moduleHandleErr e), t0, 0, none⟩
  | .ok _hInstance =>
    match env.dialogCreate with
    | .error e => some ⟨"", "", false, some (.createDialogErr e), t0, 0, none⟩
    | .ok dialogHWnd =>
      let _label1Hwnd := handleOrZero env.label1Create
      let edit1Hwnd := handleOrZero env.edit1Create
      let _label2Hwnd := handleOrZero env.label2Create
      let edit2Hwnd := handleOrZero env.edit2Create
      let _okHwnd := handleOrZero env.okCreate
      let _cancelHwnd := handleOrZero env.cancelCreate
      let st0 : DialogLoopState := ⟨"", "", false, 0, true⟩
      let installed := setDialogWndProc t0 dialogHWnd (some dlgProc)
      let t1 := installed.1
      let oldProc := installed.2
      match env.ticks with
      | [] => none
      | startTick :: ticksRest =>
        match twoTextDialogLoop env edit1Hwnd edit2Hwnd dialogHWnd startTick
            ticksRest st0 env.messages 0 with
        | none => none
        | some (stF, n, ended) =>
          let stG :=
            if stF.windowAlive then
              destroyDialogWindow env edit1Hwnd edit2Hwnd dialogHWnd stF
            else stF
          let t2 := (setDialogWndProc t1 dialogHWnd none).1
          let t3 := (setDialogWndProc t2 dialogHWnd oldProc).1
          some ⟨stG.result1, stG.result2, stG.cancelled, none, t3, n, some ended⟩

/-! ## Concrete fixtures for witnesses and counterexamples -/

/-- The acceptance-test procedure (src/window_wndproc_test.go lines 15-24):
return the sentinel `99` for message code `0x0400`, `0` otherwise. -/
def proc99W : WndProc := fun _ msg _ _ => if msg = WM_USER then 99 else 0

/-- A registry with `proc99W` registered for handle `0x1234`
(src/window_wndproc_test.go lines 12-15). -/
def m99W : WndProcMap := fun h => if h = 0x1234 then some proc99W else none

/-- A fixed `DefWindowProcW` oracle. -/
def defW0 : WndProc := fun _ _ _ _ => 0

/-- The empty registry. -/
def emptyMapW : WndProcMap := fun _ => none

/-- A text oracle: the two edit controls of the fixture dialog hold
`"alpha"` and `"beta"`. -/
def texts0 : Handle → String :=
  fun h => if h = 12 then "alpha" else if h = 14 then "beta" else ""

/-- A fixture dialog environment where every creation call succeeds (dialog
window handle `10`, controls `11`-`16`), parameterized by the tick and
message streams. -/
def envW (ticks : List Nat) (msgs : List GetMsgCall) : DialogEnv :=
  ⟨.ok 1, .ok 10, .ok 11, .ok 12, .ok 13, .ok 14, .ok 15, .ok 16,
    texts0, defW0, ticks, msgs⟩

/-- Empty procedure tables over `Nat`-valued procedure tokens. -/
def tbl0W : ProcTables Nat := ⟨fun _ => none, fun _ => none⟩

/-- A close-control script: one tick inside the timeout, then the OS delivers
`WM_CLOSE` to the dialog window (what the window's close button produces). -/
def envCloseW : DialogEnv := envW [0, 1] [⟨1, ⟨10, WM_CLOSE, 0, 0⟩, 0⟩]

/-- A no-interaction script whose second tick is already past the 30000 ms
timeout. -/
def envTimeoutW : DialogEnv := envW [0, 40000] []

/-- The timeout script with the first edit control's creation failing
(OS error 5); `TwoTextInputDialog` discards that error. -/
def envChildFailW : DialogEnv := { envTimeoutW with edit1Create := .error 5 }

/-- An environment whose dialog-window creation fails with OS error 87. -/
def envDlgFailW : DialogEnv := { envTimeoutW with dialogCreate := .error 87 }

/-! ## Claims about the registry and the global trampoline -/

/-- C1: for every handle with a registered procedure, dispatching the
final-destroy notification (`WM_NCDESTROY`) through the global trampoline
invokes that procedure exactly once, removes the handle's registry entry only
after the procedure returns — the registry seen at the moment of the call
still holds the registration — and afterwards `getWndProc` for that handle
reports not-found. -/
theorem globalWndProc_ncdestroy_final (defWP : WndProc) (m : WndProcMap)
    (hwnd : Handle) (proc : WndProc) (wParam lParam : Word)
    (hreg : getWndProc m hwnd = some proc) :
    globalWndProc defWP m hwnd WM_NCDESTROY wParam lParam =
      (proc hwnd WM_NCDESTROY wParam lParam, deleteWndProc m hwnd,
        [.procCall hwnd WM_NCDESTROY wParam lParam m, .regRemove hwnd]) ∧
    procCallCount (globalWndProc defWP m hwnd WM_NCDESTROY wParam lParam).2.2 hwnd = 1 ∧
    (∀ h msg wp lp reg,
      DispatchEvent.procCall h msg wp lp reg ∈
          (globalWndProc defWP m hwnd WM_NCDESTROY wParam lParam).2.2 →
        getWndProc reg hwnd = some proc) ∧
    getWndProc (globalWndProc defWP m hwnd WM_NCDESTROY wParam lParam).2.1 hwnd = none := by
  have hmain : globalWndProc defWP m hwnd WM_NCDESTROY wParam lParam =
      (proc hwnd WM_NCDESTROY wParam lParam, deleteWndProc m hwnd,
        [.procCall hwnd WM_NCDESTROY wParam lParam m, .regRemove hwnd]) := by
    unfold globalWndProc
    rw [hreg]
    rfl
  refine ⟨hmain, ?_, ?_, ?_⟩
  · rw [hmain]
    simp [procCallCount]
  · intro h msg wp lp reg hmem
    rw [hmain] at hmem
    simp only [List.mem_cons, List.mem_singleton] at hmem
    rcases hmem with h1 | h1 | h1
    · obtain ⟨-, -, -, -, rfl⟩ := DispatchEvent.procCall.inj h1
      exact hreg
    · cases h1
    · cases h1
  · rw [hmain]
    simp [getWndProc, deleteWndProc]

/-- C1 witness: the acceptance-test scenario at handle `0x1234`. -/
theorem globalWndProc_ncdestroy_final_witness :
    procCallCount (globalWndProc defW0 m99W 0x1234 WM_NCDESTROY 0 0).2.2 0x1234 = 1 ∧
    getWndProc (globalWndProc defW0 m99W 0x1234 WM_NCDESTROY 0 0).2.1 0x1234 = none := by
  have h := globalWndProc_ncdestroy_final defW0 m99W 0x1234 proc99W 0 0 rfl
  exact ⟨h.2.1, h.2.2.2⟩

/-- C2: for a registered handle and any message other than `WM_NCDESTROY`,
the trampoline invokes the registered procedure exactly once with the same
four inputs, returns exactly its return value, and leaves the registry
untouched. -/
theorem globalWndProc_registered_dispatch (defWP : WndProc) (m : WndProcMap)
    (hwnd : Handle) (proc : WndProc) (msg : Nat) (wParam lParam : Word)
    (hreg : getWndProc m hwnd = some proc) (hmsg : msg ≠ WM_NCDESTROY) :
    globalWndProc defWP m hwnd msg wParam lParam =
      (proc hwnd msg wParam lParam, m, [.procCall hwnd msg wParam lParam m]) ∧
    procCallCount (globalWndProc defWP m hwnd msg wParam lParam).2.2 hwnd = 1 := by
  have hmain : globalWndProc defWP m hwnd msg wParam lParam =
      (proc hwnd msg wParam lParam, m, [.procCall hwnd msg wParam lParam m]) := by
    unfold globalWndProc
    rw [hreg]
    simp [hmsg]
  refine ⟨hmain, ?_⟩
  rw [hmain]
  simp [procCallCount]

/-- C2 witness: the acceptance-test scenario — the sentinel-returning
procedure dispatched with message code `0x0400` (`WM_USER`) yields `99`,
is invoked exactly once, and the registry is unchanged. -/
theorem globalWndProc_registered_dispatch_witness :
    globalWndProc defW0 m99W 0x1234 WM_USER 1 2 =
      (99, m99W, [.procCall 0x1234 WM_USER 1 2 m99W]) ∧
    procCallCount (globalWndProc defW0 m99W 0x1234 WM_USER 1 2).2.2 0x1234 = 1 := by
  have h := globalWndProc_registered_dispatch defW0 m99W 0x1234 proc99W WM_USER 1 2
    rfl (by decide)
  exact ⟨h.1, h.2⟩

/-- C6: for a handle with no registered procedure, the trampoline returns the
OS default-handling result, the registry is returned unchanged, and no
registered procedure is invoked. -/
theorem globalWndProc_unregistered_default (defWP : WndProc) (m : WndProcMap)
    (hwnd : Handle) (msg : Nat) (wParam lParam : Word)
    (hreg : getWndProc m hwnd = none) :
    globalWndProc defWP m hwnd msg wParam lParam =
      (defWP hwnd msg wParam lParam, m, [.defaultCall hwnd msg wParam lParam]) ∧
    procCallCount (globalWndProc defWP m hwnd msg wParam lParam).2.2 hwnd = 0 := by
  have hmain : globalWndProc defWP m hwnd msg wParam lParam =
      (defWP hwnd msg wParam lParam, m, [.defaultCall hwnd msg wParam lParam]) := by
    unfold globalWndProc
    rw [hreg]
  refine ⟨hmain, ?_⟩
  rw [hmain]
  simp [procCallCount]

/-- C6 witness: dispatching to the empty registry. -/
theorem globalWndProc_unregistered_default_witness :
    globalWndProc defW0 emptyMapW 7 3 1 2 =
      (defW0 7 3 1 2, emptyMapW, [.defaultCall 7 3 1 2]) ∧
    procCallCount (globalWndProc defW0 emptyMapW 7 3 1 2).2.2 7 = 0 := by
  have h := globalWndProc_unregistered_default defW0 emptyMapW 7 3 1 2 rfl
  exact ⟨h.1, h.2⟩

/-- C8: `setWndProc` with a nil procedure is `deleteWndProc`; `deleteWndProc`
on an absent handle is a no-op; both are idempotent (and total — no error
conditions exist). -/
theorem registry_set_nil_remove_idempotent (m : WndProcMap) (hwnd : Handle)
    (p : WndProc) :
    setWndProc m hwnd none = deleteWndProc m hwnd ∧
    (getWndProc m hwnd = none → deleteWndProc m hwnd = m) ∧
    deleteWndProc (deleteWndProc m hwnd) hwnd = deleteWndProc m hwnd ∧
    setWndProc (setWndProc m hwnd (some p)) hwnd (some p) =
      setWndProc m hwnd (some p) ∧
    setWndProc (setWndProc m hwnd none) hwnd none = setWndProc m hwnd none := by
  refine ⟨rfl, ?_, ?_, ?_, ?_⟩
  · intro h0
    funext h
    by_cases hh : h = hwnd
    · subst hh
      simpa [deleteWndProc] using h0.symm
    · simp [deleteWndProc, hh]
  · funext h
    by_cases hh : h = hwnd <;> simp [deleteWndProc, hh]
  · funext h
    by_cases hh : h = hwnd <;> simp [setWndProc, hh]
  · funext h
    by_cases hh : h = hwnd <;> simp [setWndProc, deleteWndProc, hh]

/-- C8 witness: the operations evaluated on a concrete registry. -/
theorem registry_set_nil_remove_idempotent_witness :
    setWndProc m99W 0x1234 none = deleteWndProc m99W 0x1234 ∧
    deleteWndProc emptyMapW 7 = emptyMapW := by
  have h1 := registry_set_nil_remove_idempotent m99W 0x1234 proc99W
  have h2 := registry_set_nil_remove_idempotent emptyMapW 7 proc99W
  exact ⟨h1.1, h2.2.1 rfl⟩

/-! ## Claims about class registration and the message loop -/

/-- C9: window-class registration is idempotent at this interface — when the
OS registration call fails (`r1 = 0`) with the already-exists code `1410`,
`registerClassExW` returns success `(1, nil)`; every other OS failure code is
returned as an error; a nonzero atom is success. -/
theorem registerClassExW_already_exists_policy :
    (∀ le sz, le = 1410 → registerClassExW 0 le (some sz) = (1, none)) ∧
    (∀ le sz, le ≠ 1410 →
      registerClassExW 0 le (some sz) = (0, some (.osError le))) ∧
    (∀ r1 le sz, r1 ≠ 0 → registerClassExW r1 le (some sz) = (r1 % 65536, none)) := by
  refine ⟨?_, ?_, ?_⟩
  · intro le sz hle
    simp [registerClassExW, hle]
  · intro le sz hle
    simp [registerClassExW, hle]
  · intro r1 le sz hr
    simp [registerClassExW, hr]

/-- C7: the message loop ends in exactly two ways — a retrieval error
(`ret = -1`) stops it at once and propagates the error, and the quit sentinel
(`ret = 0`) returns the exit code carried in the quit message's `wParam` with
no error; every other retrieval result is dispatched and the loop continues;
and every terminating run's result comes from one of those two events. -/
theorem MessageLoop_exit_modes :
    (∀ c rest, c.ret = -1 →
      MessageLoop (c :: rest) = some ((0, some c.lastError), [])) ∧
    (∀ c rest, c.ret = 0 →
      MessageLoop (c :: rest) = some ((toInt32 c.msg.wParam, none), [])) ∧
    (∀ c rest, c.ret ≠ -1 → c.ret ≠ 0 →
      MessageLoop (c :: rest) =
        Option.map (fun p => (p.1, c.msg :: p.2)) (MessageLoop rest)) ∧
    (∀ msgs res ds, MessageLoop msgs = some (res, ds) →
      ∃ c ∈ msgs,
        (c.ret = -1 ∧ res = (0, some c.lastError)) ∨
        (c.ret = 0 ∧ res = (toInt32 c.msg.wParam, none))) := by
  have p1 : ∀ (c : GetMsgCall) rest, c.ret = -1 →
      MessageLoop (c :: rest) = some ((0, some c.lastError), []) := by
    intro c rest h
    simp [MessageLoop, GetMessageW, h]
  have p2 : ∀ (c : GetMsgCall) rest, c.ret = 0 →
      MessageLoop (c :: rest) = some ((toInt32 c.msg.wParam, none), []) := by
    intro c rest h
    simp [MessageLoop, GetMessageW, h]
  have p3 : ∀ (c : GetMsgCall) rest, c.ret ≠ -1 → c.ret ≠ 0 →
      MessageLoop (c :: rest) =
        Option.map (fun p => (p.1, c.msg :: p.2)) (MessageLoop rest) := by
    intro c rest h1 h0
    cases hr : MessageLoop rest with
    | none => simp [MessageLoop, GetMessageW, h1, h0, hr]
    | some v =>
      obtain ⟨res, ds⟩ := v
      simp [MessageLoop, GetMessageW, h1, h0, hr]
  refine ⟨p1, p2, p3, ?_⟩
  intro msgs
  induction msgs with
  | nil =>
    intro res ds h
    simp [MessageLoop] at h
  | cons c rest ih =>
    intro res ds h
    by_cases h1 : c.ret = -1
    · rw [p1 c rest h1] at h
      obtain ⟨h2, -⟩ := Prod.mk.inj (Option.some.inj h)
      exact ⟨c, List.mem_cons_self c rest, Or.inl ⟨h1, h2.symm⟩⟩
    · by_cases h0 : c.ret = 0
      · rw [p2 c rest h0] at h
        obtain ⟨h2, -⟩ := Prod.mk.inj (Option.some.inj h)
        exact ⟨c, List.mem_cons_self c rest, Or.inr ⟨h0, h2.symm⟩⟩
      · rw [p3 c rest h1 h0] at h
        cases hr : MessageLoop rest with
        | none =>
          rw [hr] at h
          cases h
        | some v =>
          obtain ⟨res2, ds2⟩ := v
          rw [hr] at h
          obtain ⟨h2, -⟩ := Prod.mk.inj (Option.some.inj h)
          obtain ⟨c2, hmem, hor⟩ := ih res2 ds2 hr
          refine ⟨c2, List.mem_cons_of_mem c hmem, ?_⟩
          obtain rfl : res2 = res := h2
          exact hor

/-! ## Helper lemmas about the modal loop -/

theorem twoTextDialogLoop_done (env : DialogEnv) (e1 e2 hd s : Handle)
    (ticks : List Nat) (st : DialogLoopState) (msgs : List GetMsgCall) (n : Nat)
    (h : st.done ≠ 0) :
    twoTextDialogLoop env e1 e2 hd s ticks st msgs n = some (st, n, .completed) := by
  rw [twoTextDialogLoop.eq_def]
  simp [h]

theorem twoTextDialogLoop_timeout (env : DialogEnv) (e1 e2 hd : Handle) (s t : Nat)
    (tr : List Nat) (st : DialogLoopState) (msgs : List GetMsgCall) (n : Nat)
    (h : st.done = 0) (ht : 30000 < sub32 t s) :
    twoTextDialogLoop env e1 e2 hd s (t :: tr) st msgs n = some (st, n, .timedOut) := by
  rw [twoTextDialogLoop.eq_def]
  simp [h, ht]

theorem twoTextDialogLoop_step (env : DialogEnv) (e1 e2 hd : Handle) (s t : Nat)
    (tr : List Nat) (st : DialogLoopState) (c : GetMsgCall) (mr : List GetMsgCall)
    (n : Nat) (h : st.done = 0) (ht : ¬ 30000 < sub32 t s)
    (h0 : c.ret ≠ 0) (h1 : c.ret ≠ -1) :
    twoTextDialogLoop env e1 e2 hd s (t :: tr) st (c :: mr) n =
      twoTextDialogLoop env e1 e2 hd s tr
        (dispatchDialogMsg env e1 e2 hd st c.msg) mr (n + 1) := by
  rw [twoTextDialogLoop.eq_def]
  simp [h, ht, h0, h1]

theorem twoTextDialogLoop_cancelScript (env : DialogEnv) (e1 e2 hd : Handle)
    (s t1 : Nat) (tr : List Nat) (wp lp le : Nat) (rest : List GetMsgCall)
    (hwp : wp % 65536 = IDCANCEL) (ht1 : ¬ 30000 < sub32 t1 s) :
    twoTextDialogLoop env e1 e2 hd s (t1 :: tr) ⟨"", "", false, 0, true⟩
        (⟨1, ⟨hd, WM_COMMAND, wp, lp⟩, le⟩ :: rest) 0 =
      some (⟨"", "", true, 1, true⟩, 1, .completed) := by
  rw [twoTextDialogLoop_step env e1 e2 hd s t1 tr _ _ rest 0 rfl ht1
    (by simp) (by simp)]
  have hdisp : dispatchDialogMsg env e1 e2 hd ⟨"", "", false, 0, true⟩
      ⟨hd, WM_COMMAND, wp, lp⟩ = ⟨"", "", true, 1, true⟩ := by
    simp [dispatchDialogMsg, twoTextDialogProcCore, hwp, IDOK, IDCANCEL]
  rw [show (⟨1, ⟨hd, WM_COMMAND, wp, lp⟩, le⟩ : GetMsgCall).msg = ⟨hd, WM_COMMAND, wp, lp⟩ from rfl,
    hdisp]
  exact twoTextDialogLoop_done env e1 e2 hd s tr ⟨"", "", true, 1, true⟩ rest 1 (by simp)

theorem twoTextDialogLoop_closeScript (env : DialogEnv) (e1 e2 hd : Handle)
    (s t1 : Nat) (tr : List Nat) (wp lp le : Nat) (rest : List GetMsgCall)
    (ht1 : ¬ 30000 < sub32 t1 s) :
    twoTextDialogLoop env e1 e2 hd s (t1 :: tr) ⟨"", "", false, 0, true⟩
        (⟨1, ⟨hd, WM_CLOSE, wp, lp⟩, le⟩ :: rest) 0 =
      some (⟨"", "", false, 1, false⟩, 1, .completed) := by
  rw [twoTextDialogLoop_step env e1 e2 hd s t1 tr _ _ rest 0 rfl ht1
    (by simp) (by simp)]
  have hdisp : dispatchDialogMsg env e1 e2 hd ⟨"", "", false, 0, true⟩
      ⟨hd, WM_CLOSE, wp, lp⟩ = ⟨"", "", false, 1, false⟩ := by
    simp [dispatchDialogMsg, twoTextDialogProcCore, destroyDialogWindow,
      WM_COMMAND, WM_CLOSE, WM_DESTROY]
  rw [show (⟨1, ⟨hd, WM_CLOSE, wp, lp⟩, le⟩ : GetMsgCall).msg = ⟨hd, WM_CLOSE, wp, lp⟩ from rfl,
    hdisp]
  exact twoTextDialogLoop_done env e1 e2 hd s tr ⟨"", "", false, 1, false⟩ rest 1 (by simp)

/-! ## Claims about the modal dialog -/

/-- C3 counterexample: a dialog call that completes because the 30000 ms
timeout expires with no interaction returns `cancelled = false` — not
`cancelled = true` as claimed (`cancelled` is set only by the `IDCANCEL`
branch of the closure). The error is nil, as claimed. -/
theorem twoTextInputDialog_timeout_cancelled_false_cex :
    ((TwoTextInputDialog 99 envTimeoutW tbl0W).map
      fun r => (r.cancelled, r.err, r.loopEnd, r.getMessageCalls)) =
      some (false, none, some .timedOut, 0) := by
  rfl

/-- A completion through the window's close control (the OS delivers
`WM_CLOSE`; the closure destroys the window, whose `WM_DESTROY` sets the
completion flag) likewise returns `cancelled = false` with a nil error. -/
theorem twoTextInputDialog_close_cancelled_false :
    ((TwoTextInputDialog 99 envCloseW tbl0W).map
      fun r => (r.cancelled, r.err, r.loopEnd)) =
      some (false, none, some .completed) := by
  rfl

/-- C3 amended: on every completion path other than accept the dialog call
returns a nil error, but only a cancel activation reports `cancelled = true`:
a close-control activation and an expiry of the 30000 ms timeout with no
interaction both return `cancelled = false` (still with nil error). -/
theorem twoTextInputDialog_cancel_close_timeout (hi hd l1 e1 l2 e2 okh ch : Handle)
    (texts : Handle → String) (defWP : Handle → Nat → Word → Word → Word)
    {P : Type} (dlgProc : P) (t0 : ProcTables P) (s t1 tT : Nat) (wp lp le : Nat)
    (tr : List Nat) (rest : List GetMsgCall)
    (hwp : wp % 65536 = IDCANCEL) (ht1 : ¬ 30000 < sub32 t1 s)
    (htT : 30000 < sub32 tT s) :
    ((TwoTextInputDialog dlgProc
        ⟨.ok hi, .ok hd, .ok l1, .ok e1, .ok l2, .ok e2, .ok okh, .ok ch, texts, defWP,
          s :: t1 :: tr, ⟨1, ⟨hd, WM_COMMAND, wp, lp⟩, le⟩ :: rest⟩ t0).map
      fun r => (r.cancelled, r.err)) = some (true, none) ∧
    ((TwoTextInputDialog dlgProc
        ⟨.ok hi, .ok hd, .ok l1, .ok e1, .ok l2, .ok e2, .ok okh, .ok ch, texts, defWP,
          s :: t1 :: tr, ⟨1, ⟨hd, WM_CLOSE, wp, lp⟩, le⟩ :: rest⟩ t0).map
      fun r => (r.cancelled, r.err)) = some (false, none) ∧
    ((TwoTextInputDialog dlgProc
        ⟨.ok hi, .ok hd, .ok l1, .ok e1, .ok l2, .ok e2, .ok okh, .ok ch, texts, defWP,
          s :: tT :: tr, rest⟩ t0).map
      fun r => (r.cancelled, r.err)) = some (false, none) := by
  refine ⟨?_, ?_, ?_⟩
  · simp only [TwoTextInputDialog, handleOrZero]
    rw [twoTextDialogLoop_cancelScript _ e1 e2 hd s t1 tr wp lp le rest hwp ht1]
    simp [destroyDialogWindow, twoTextDialogProcCore, WM_COMMAND, WM_CLOSE, WM_DESTROY]
  · simp only [TwoTextInputDialog, handleOrZero]
    rw [twoTextDialogLoop_closeScript _ e1 e2 hd s t1 tr wp lp le rest ht1]
    simp [destroyDialogWindow, twoTextDialogProcCore, WM_COMMAND, WM_CLOSE, WM_DESTROY]
  · simp only [TwoTextInputDialog, handleOrZero]
    rw [twoTextDialogLoop_timeout _ e1 e2 hd s tT tr _ rest 0 rfl htT]
    simp [destroyDialogWindow, twoTextDialogProcCore, WM_COMMAND, WM_CLOSE, WM_DESTROY]

/-- C3 amended witness: the three scripts at concrete inputs. -/
theorem twoTextInputDialog_cancel_close_timeout_witness :
    ((TwoTextInputDialog (99 : Nat)
        ⟨.ok 1, .ok 10, .ok 11, .ok 12, .ok 13, .ok 14, .ok 15, .ok 16, texts0, defW0,
          [0, 1], [⟨1, ⟨10, WM_COMMAND, 2, 0⟩, 0⟩]⟩ tbl0W).map
      fun r => (r.cancelled, r.err)) = some (true, none) ∧
    ((TwoTextInputDialog (99 : Nat)
        ⟨.ok 1, .ok 10, .ok 11, .ok 12, .ok 13, .ok 14, .ok 15, .ok 16, texts0, defW0,
          [0, 1], [⟨1, ⟨10, WM_CLOSE, 2, 0⟩, 0⟩]⟩ tbl0W).map
      fun r => (r.cancelled, r.err)) = some (false, none) ∧
    ((TwoTextInputDialog (99 : Nat)
        ⟨.ok 1, .ok 10, .ok 11, .ok 12, .ok 13, .ok 14, .ok 15, .ok 16, texts0, defW0,
          [0, 40000], []⟩ tbl0W).map
      fun r => (r.cancelled, r.err)) = some (false, none) :=
  twoTextInputDialog_cancel_close_timeout 1 10 11 12 13 14 15 16 texts0 defW0
    99 tbl0W 0 1 40000 2 0 0 [] [] (by decide) (by decide) (by decide)

/-- C4 counterexample: with the OS failing the creation of the first edit
control (error 5) but the dialog window itself created, the call does not
abort and does not surface an error: it enters the modal loop (which here
ends by timeout) and returns a nil error. -/
theorem twoTextInputDialog_child_failure_ignored_cex :
    ((TwoTextInputDialog 99 envChildFailW tbl0W).map
      fun r => (r.err, r.loopEnd, r.getMessageCalls)) =
      some (none, some .timedOut, 0) := by
  rfl

/-- C4 amended: only a failure obtaining the module handle or creating the
dialog window itself aborts the call before the message loop (no retrieval
calls, loop never entered) and surfaces an error; once the dialog window is
created the call never returns an error — child-control creation failures
are discarded. -/
theorem twoTextInputDialog_creation_failure_paths {P : Type} (dlgProc : P)
    (env : DialogEnv) (t0 : ProcTables P) :
    (∀ e, env.moduleHandle = .error e →
      TwoTextInputDialog dlgProc env t0 =
        some ⟨"", "", false, some (.moduleHandleErr e), t0, 0, none⟩) ∧
    (∀ hi e, env.moduleHandle = .ok hi → env.dialogCreate = .error e →
      TwoTextInputDialog dlgProc env t0 =
        some ⟨"", "", false, some (.createDialogErr e), t0, 0, none⟩) ∧
    (∀ hi hd, env.moduleHandle = .ok hi → env.dialogCreate = .ok hd →
      ∀ r, TwoTextInputDialog dlgProc env t0 = some r → r.err = none) := by
  refine ⟨?_, ?_, ?_⟩
  · intro e hm
    unfold TwoTextInputDialog
    rw [hm]
  · intro hi e hm hdc
    unfold TwoTextInputDialog
    rw [hm, hdc]
  · intro hi hd hm hdc r hr
    unfold TwoTextInputDialog at hr
    cases ht : env.ticks with
    | nil =>
      simp only [hm, hdc, ht] at hr
      cases hr
    | cons s tr =>
      simp only [hm, hdc, ht] at hr
      cases hl : twoTextDialogLoop env (handleOrZero env.edit1Create)
          (handleOrZero env.edit2Create) hd s tr ⟨"", "", false, 0, true⟩
          env.messages 0 with
      | none =>
        rw [hl] at hr
        cases hr
      | some v =>
        obtain ⟨stF, n, ended⟩ := v
        rw [hl] at hr
        obtain rfl := Option.some.inj hr
        rfl

/-- C4 amended witness: a concrete environment whose dialog-window creation
fails with OS error 87 — the call aborts before the loop with that error. -/
theorem twoTextInputDialog_creation_failure_paths_witness :
    TwoTextInputDialog (99 : Nat) envDlgFailW tbl0W =
      some ⟨"", "", false, some (.createDialogErr 87), tbl0W, 0, none⟩ :=
  (twoTextInputDialog_creation_failure_paths 99 envDlgFailW tbl0W).2.1 1 87 rfl rfl

/-- C5: whenever a `TwoTextInputDialog` call returns (by any exit path —
completion through accept, cancel or destroy, the quit sentinel, a retrieval
error, or timeout), the dialog-procedure mapping equals its state before the
call: the explicit removal followed by the deferred
`setDialogWndProc(dialogHWnd, oldProc)` restores the previously registered
procedure, and leaves the handle absent when there was none. -/
theorem twoTextInputDialog_restores_dialog_proc {P : Type} (dlgProc : P)
    (env : DialogEnv) (t0 : ProcTables P) :
    match TwoTextInputDialog dlgProc env t0 with
    | none => True
    | some r => r.tables.dialogWndProcs = t0.dialogWndProcs := by
  unfold TwoTextInputDialog
  cases hm : env.moduleHandle with
  | error e => simp
  | ok hi =>
    cases hdc : env.dialogCreate with
    | error e => simp
    | ok hd =>
      cases ht : env.ticks with
      | nil => simp
      | cons s tr =>
        cases hl : twoTextDialogLoop env (handleOrZero env.edit1Create)
            (handleOrZero env.edit2Create) hd s tr ⟨"", "", false, 0, true⟩
            env.messages 0 with
        | none => simp [hl]
        | some v =>
          obtain ⟨stF, n, ended⟩ := v
          cases h0 : t0.dialogWndProcs hd with
          | none =>
            simp only [hl, setDialogWndProc, h0]
            funext h
            by_cases hh : h = hd
            · subst hh
              simp [h0]
            · simp [hh]
          | some p =>
            simp only [hl, setDialogWndProc, h0]
            funext h
            by_cases hh : h = hd
            · subst hh
              simp [h0]
            · simp [hh]

/-- C10: the dialog subsystem's procedure table is disjoint from the main
registry — `setDialogWndProc` never changes `wndProcByHWND`, and a whole
`TwoTextInputDialog` call returns with `wndProcByHWND` exactly as it was
before the call. -/
theorem dialog_table_disjoint_from_main_registry {P : Type} (t : ProcTables P)
    (hwnd : Handle) (p : Option P) (dlgProc : P) (env : DialogEnv)
    (t0 : ProcTables P) :
    (setDialogWndProc t hwnd p).1.wndProcByHWND = t.wndProcByHWND ∧
    (match TwoTextInputDialog dlgProc env t0 with
     | none => True
     | some r => r.tables.wndProcByHWND = t0.wndProcByHWND) := by
  constructor
  · cases p <;> rfl
  · unfold TwoTextInputDialog
    cases hm : env.moduleHandle with
    | error e => simp
    | ok hi =>
      cases hdc : env.dialogCreate with
      | error e => simp
      | ok hd =>
        cases ht : env.ticks with
        | nil => simp
        | cons s tr =>
          cases hl : twoTextDialogLoop env (handleOrZero env.edit1Create)
              (handleOrZero env.edit2Create) hd s tr ⟨"", "", false, 0, true⟩
              env.messages 0 with
          | none => simp [hl]
          | some v =>
            obtain ⟨stF, n, ended⟩ := v
            cases h0 : t0.dialogWndProcs hd with
            | none => simp [hl, setDialogWndProc, h0]
            | some p2 => simp [hl, setDialogWndProc, h0]

end Win32Utils
